import Mathlib

/-!
Verification of the Allwinner sun6i/sun8i SPI controller model
(`hw/ssi/allwinner_sun6i_spi.c`).

The controller state is a record of twelve 32-bit registers plus two bounded
word FIFOs.  Machine integers are modelled as `Nat` with explicit `% 2^32`
truncation where the C code stores a 32-bit value; bit masks from the C source
(`SUN6I_TFR_CTL_XCH = BIT(31)`, `SUN6I_FIFO_CTL_TF_RST = BIT(31)`,
`SUN6I_FIFO_CTL_RF_RST = BIT(15)`) appear as their numeric values.

The `Fifo32` helper type (QEMU's `qemu/fifo32.h`) is not part of the sources
of this repository; its operations are modelled from the spec (FIFO contract):
push on a full queue is a dropped no-op, pop on an empty queue returns 0
without mutation, reset clears the queue and keeps the capacity.

Calls to the attached peripheral (`ssi_transfer`) are modelled by an arbitrary
function `periph : Nat → Nat` from the transmitted word to the reply word; the
sequence of words handed to `ssi_transfer` during a burst is recorded in the
ghost field `xch_log`, which no register access reads or stores.
-/

/-- Modelled from the spec: QEMU's `Fifo32` (from `qemu/fifo32.h`, not among
the repository sources) — a bounded FIFO of 32-bit words with a fixed
capacity.  The queue content is the list `data`, oldest element first. -/
structure Fifo32 where
  data : List Nat
  capacity : Nat
deriving Repr, DecidableEq

/-- Modelled from the spec: `count()` — the number of words currently
queued (`fifo32_num_used`). -/
def fifo32_num_used (f : Fifo32) : Nat := f.data.length

/-- Modelled from the spec: `is_empty()`. -/
def fifo32_is_empty (f : Fifo32) : Bool := f.data.isEmpty

/-- Modelled from the spec: `is_full()`. -/
def fifo32_is_full (f : Fifo32) : Bool := f.data.length == f.capacity

/-- Modelled from the spec: `push(word)` — appends at the tail; on a full
queue the word is silently dropped (a logged usage error, not a crash). -/
def fifo32_push (f : Fifo32) (v : Nat) : Fifo32 :=
  if f.data.length < f.capacity then { f with data := f.data ++ [v] } else f

/-- Modelled from the spec: `pop()` — removes and returns the oldest word;
on an empty queue returns 0 without mutation. -/
def fifo32_pop (f : Fifo32) : Nat × Fifo32 :=
  match f with
  | ⟨[], _⟩ => (0, f)
  | ⟨x :: xs, c⟩ => (x, ⟨xs, c⟩)

/-- Modelled from the spec: `reset()` — clears to empty, capacity unchanged. -/
def fifo32_reset (f : Fifo32) : Fifo32 := { f with data := [] }

/-- The controller state (`AWSpiState` from
`include/hw/ssi/allwinner_sun6i_spi.h`): the two FIFOs, the construction-time
FIFO capacity, and the stored 32-bit registers.  `xch_log` is a ghost trace of
the words handed to `ssi_transfer`, recording the externally observable bus
activity; no register path reads it. -/
structure AWSpiState where
  fifo_size : Nat
  rx_fifo : Fifo32
  tx_fifo : Fifo32
  gcr : Nat
  tcr : Nat
  ier : Nat
  isr : Nat
  fcr : Nat
  wcr : Nat
  ccr : Nat
  mbr : Nat
  mtc : Nat
  bcc : Nat
  ndma_mode_ctl : Nat
  xch_log : List Nat
deriving Repr, DecidableEq

/-- `allwinner_sun6i_spi_reset` (allwinner_sun6i_spi.c:156-169): sets the six
registers with non-zero documented defaults and clears both FIFOs.  The
remaining registers (`ier`, `wcr`, `mbr`, `mtc`, `bcc`) are not written by
the reset handler. -/
def allwinner_sun6i_spi_reset (s : AWSpiState) : AWSpiState :=
  { s with
    gcr := 0x80
    tcr := 0x87
    isr := 0x32
    fcr := 0x00400001
    ccr := 0x02
    ndma_mode_ctl := 0xa5
    rx_fifo := fifo32_reset s.rx_fifo
    tx_fifo := fifo32_reset s.tx_fifo }

/-- One iteration of the inner `for` loop of `allwinner_sun6i_spi_transfer`
(allwinner_sun6i_spi.c:196-208): pop a word from TX (0 if empty), exchange it
over the SSI bus, push the reply into RX unless RX is full. -/
def xferWord (periph : Nat → Nat) (s : AWSpiState) : AWSpiState :=
  let txp := if fifo32_is_empty s.tx_fifo then ((0 : Nat), s.tx_fifo)
             else fifo32_pop s.tx_fifo
  let rx := periph txp.1
  let rxf := if fifo32_is_full s.rx_fifo then s.rx_fifo
             else fifo32_push s.rx_fifo rx
  { s with tx_fifo := txp.2, rx_fifo := rxf, xch_log := s.xch_log ++ [txp.1] }

/-- `n` iterations of the inner `for` loop (one chunk processes
`n = min burst 64` words). -/
def xferN (periph : Nat → Nat) : Nat → AWSpiState → AWSpiState
  | 0, s => s
  | Nat.succ n, s => xferN periph n (xferWord periph s)

/-- The `while (burst > 0)` loop of `allwinner_sun6i_spi_transfer`
(allwinner_sun6i_spi.c:189-223): each pass processes a chunk of at most 64
words (`ARRAY_SIZE(trace_tx)`) and subtracts the chunk size from `burst`.
The `snprintf` tracing inside the loop does not touch controller state and
is omitted. -/
def transferLoop (periph : Nat → Nat) (burst : Nat) (s : AWSpiState) :
    AWSpiState :=
  if _h : burst = 0 then s
  else
    transferLoop periph (burst - (if 64 < burst then 64 else burst))
      (xferN periph (if 64 < burst then 64 else burst) s)
termination_by burst
decreasing_by
  simp_wf
  split <;> omega

/-- Fuel-indexed image of the same `while` loop, used to state termination:
`none` means the fuel ran out before the loop reached `burst = 0`. -/
def transferLoopF (periph : Nat → Nat) :
    Nat → Nat → AWSpiState → Option AWSpiState
  | fuel, burst, s =>
    if burst = 0 then some s
    else
      match fuel with
      | 0 => none
      | Nat.succ f =>
          transferLoopF periph f (burst - (if 64 < burst then 64 else burst))
            (xferN periph (if 64 < burst then 64 else burst) s)

/-- `allwinner_sun6i_spi_transfer` (allwinner_sun6i_spi.c:171-224): read the
burst length from the low 24 bits of `mbr`; abort (logged) if zero; clamp
(logged) to the TX occupancy on mismatch; run the chunked exchange loop. -/
def allwinner_sun6i_spi_transfer (periph : Nat → Nat) (s : AWSpiState) :
    AWSpiState :=
  let burst := s.mbr % 2 ^ 24
  if burst = 0 then s
  else
    let burst2 := if fifo32_num_used s.tx_fifo ≠ burst
                  then fifo32_num_used s.tx_fifo else burst
    transferLoop periph burst2 s

/-- `spi_read` (allwinner_sun6i_spi.c:226-288): returns the read value and
the post-read state.  Reading `SUN6I_RXDATA_REG` (0x300) pops the RX FIFO
(0 if empty); reading `SUN6I_FIFO_STA_REG` (0x1c) composes the two live
occupancies; reading the write-only `SUN6I_TXDATA_REG` (0x200) or a bad
offset is a logged usage error returning 0. -/
def spi_read (s : AWSpiState) (addr : Nat) : Nat × AWSpiState :=
  if addr = 0x04 then (s.gcr, s)
  else if addr = 0x08 then (s.tcr, s)
  else if addr = 0x10 then (s.ier, s)
  else if addr = 0x14 then (s.isr, s)
  else if addr = 0x18 then (s.fcr, s)
  else if addr = 0x1c then
    (((fifo32_num_used s.rx_fifo <<< 0) |||
      (fifo32_num_used s.tx_fifo <<< 16)) % 2 ^ 32, s)
  else if addr = 0x20 then (s.wcr, s)
  else if addr = 0x24 then (s.ccr, s)
  else if addr = 0x30 then (s.mbr, s)
  else if addr = 0x34 then (s.mtc, s)
  else if addr = 0x38 then (s.bcc, s)
  else if addr = 0x88 then (s.ndma_mode_ctl, s)
  else if addr = 0x300 then
    if fifo32_is_empty s.rx_fifo then (0, s)
    else ((fifo32_pop s.rx_fifo).1, { s with rx_fifo := (fifo32_pop s.rx_fifo).2 })
  else (0, s)

/-- `spi_write` (allwinner_sun6i_spi.c:290-362).  The incoming 64-bit value
is truncated to 32 bits (`uint32_t value = val64`).  Writing
`SUN6I_TFR_CTL_REG` (0x08) with bit 31 (`SUN6I_TFR_CTL_XCH`) set runs the
burst transfer and stores the value with bit 31 cleared; writing
`SUN6I_FIFO_CTL_REG` (0x18) honours `TF_RST` (bit 31) before `RF_RST`
(bit 15), clearing the honoured bit before storing; writing
`SUN6I_TXDATA_REG` (0x200) pushes into the TX FIFO; writes to the read-only
0x300 / 0x1c offsets and to bad offsets are logged usage errors with no
state change. -/
def spi_write (periph : Nat → Nat) (s : AWSpiState) (addr : Nat)
    (val64 : Nat) : AWSpiState :=
  let value := val64 % 2 ^ 32
  if addr = 0x04 then { s with gcr := value }
  else if addr = 0x08 then
    if value &&& 0x80000000 ≠ 0 then
      { allwinner_sun6i_spi_transfer periph s with tcr := value &&& 0x7fffffff }
    else { s with tcr := value }
  else if addr = 0x10 then { s with ier := value }
  else if addr = 0x14 then { s with isr := value }
  else if addr = 0x18 then
    if value &&& 0x80000000 ≠ 0 then
      { s with tx_fifo := fifo32_reset s.tx_fifo, fcr := value &&& 0x7fffffff }
    else if value &&& 0x8000 ≠ 0 then
      { s with rx_fifo := fifo32_reset s.rx_fifo, fcr := value &&& 0xffff7fff }
    else { s with fcr := value }
  else if addr = 0x20 then { s with wcr := value }
  else if addr = 0x24 then { s with ccr := value }
  else if addr = 0x30 then { s with mbr := value }
  else if addr = 0x34 then { s with mtc := value }
  else if addr = 0x38 then { s with bcc := value }
  else if addr = 0x88 then { s with ndma_mode_ctl := value }
  else if addr = 0x200 then { s with tx_fifo := fifo32_push s.tx_fifo value }
  else s

/-- The byte offsets decoded by `spi_read`/`spi_write` (the register map). -/
def knownOffsets : List Nat :=
  [0x04, 0x08, 0x10, 0x14, 0x18, 0x1c, 0x20, 0x24, 0x30, 0x34, 0x38,
   0x88, 0x200, 0x300]

/-- Pushing a list of words through successive writes of the transmit-data
offset. -/
def pushWords (periph : Nat → Nat) (s : AWSpiState) (l : List Nat) :
    AWSpiState :=
  l.foldl (fun t w => spi_write periph t 0x200 w) s

lemma xferN_add (periph : Nat → Nat) (a b : Nat) (s : AWSpiState) :
    xferN periph (a + b) s = xferN periph b (xferN periph a s) := by
  induction a generalizing s with
  | zero => simp [xferN]
  | succ n ih =>
      have hab : n + 1 + b = (n + b) + 1 := by omega
      rw [hab]
      show xferN periph (n + b) (xferWord periph s) = _
      rw [ih]
      rfl

lemma transferLoop_eq_xferN (periph : Nat → Nat) :
    ∀ b s, transferLoop periph b s = xferN periph b s := by
  intro b
  induction b using Nat.strong_induction_on with
  | _ b ih =>
    intro s
    rw [transferLoop]
    by_cases hb : b = 0
    · subst hb; simp [xferN]
    · rw [dif_neg hb]
      have h1 : (if 64 < b then 64 else b) ≤ b := by split <;> omega
      have h2 : 1 ≤ (if 64 < b then 64 else b) := by split <;> omega
      rw [ih _ (by omega)]
      rw [← xferN_add]
      congr 1
      omega

lemma xferN_drain (periph : Nat → Nat) :
    ∀ (l : List Nat) (s : AWSpiState), s.tx_fifo.data = l →
    xferN periph l.length s =
      { s with
        tx_fifo := ⟨[], s.tx_fifo.capacity⟩,
        rx_fifo := List.foldl
          (fun f r => if fifo32_is_full f then f else fifo32_push f r)
          s.rx_fifo (l.map periph),
        xch_log := s.xch_log ++ l } := by
  intro l
  induction l with
  | nil =>
      intro s h
      obtain ⟨a1, a2, a3, a4, a5, a6, a7, a8, a9, a10, a11, a12, a13, a14, a15⟩ := s
      obtain ⟨td, tc⟩ := a3
      simp_all [xferN]
  | cons x xs ih =>
      intro s h
      have hw : xferWord periph s =
          { s with
            tx_fifo := ⟨xs, s.tx_fifo.capacity⟩,
            rx_fifo := if fifo32_is_full s.rx_fifo then s.rx_fifo
                       else fifo32_push s.rx_fifo (periph x),
            xch_log := s.xch_log ++ [x] } := by
        obtain ⟨a1, a2, a3, a4, a5, a6, a7, a8, a9, a10, a11, a12, a13, a14, a15⟩ := s
        obtain ⟨td, tc⟩ := a3
        simp only [Fifo32.mk.injEq] at h ⊢
        subst h
        simp [xferWord, fifo32_is_empty, fifo32_pop]
      show xferN periph xs.length (xferWord periph s) = _
      rw [hw, ih _ (by simp)]
      obtain ⟨a1, a2, a3, a4, a5, a6, a7, a8, a9, a10, a11, a12, a13, a14, a15⟩ := s
      simp_all [List.foldl]

lemma foldl_rxPush_no_drop :
    ∀ (l : List Nat) (f : Fifo32), f.data.length + l.length ≤ f.capacity →
    List.foldl (fun f r => if fifo32_is_full f then f else fifo32_push f r) f l
      = ⟨f.data ++ l, f.capacity⟩ := by
  intro l
  induction l with
  | nil => intro f h; cases f; simp
  | cons r rs ih =>
      intro f h
      obtain ⟨d, c⟩ := f
      simp only [List.length_cons] at h
      have h1 : d.length < c := by omega
      have hstep :
          (if fifo32_is_full ⟨d, c⟩ then (⟨d, c⟩ : Fifo32)
           else fifo32_push ⟨d, c⟩ r) = (⟨d ++ [r], c⟩ : Fifo32) := by
        rw [if_neg (by simp [fifo32_is_full]; omega)]
        simp [fifo32_push, h1]
      rw [List.foldl_cons]
      show List.foldl _
        (if fifo32_is_full ⟨d, c⟩ then (⟨d, c⟩ : Fifo32)
         else fifo32_push ⟨d, c⟩ r) rs = _
      rw [hstep, ih _ (by simp; omega)]
      simp

lemma transfer_eq_xferN_num_used (periph : Nat → Nat) (s : AWSpiState)
    (hb : s.mbr % 2 ^ 24 ≠ 0) :
    allwinner_sun6i_spi_transfer periph s =
      xferN periph (fifo32_num_used s.tx_fifo) s := by
  unfold allwinner_sun6i_spi_transfer
  rw [if_neg hb]
  by_cases hc : fifo32_num_used s.tx_fifo ≠ s.mbr % 2 ^ 24
  · rw [if_pos hc, transferLoop_eq_xferN]
  · rw [if_neg hc, transferLoop_eq_xferN]
    push_neg at hc
    rw [hc]

lemma burst_write_spec (periph : Nat → Nat) (s : AWSpiState) (v : Nat)
    (hb : s.mbr % 2 ^ 24 ≠ 0) (hbit : v % 2 ^ 32 &&& 0x80000000 ≠ 0) :
    spi_write periph s 0x08 v =
      { xferN periph (fifo32_num_used s.tx_fifo) s with
        tcr := v % 2 ^ 32 &&& 0x7fffffff } := by
  unfold spi_write
  rw [if_neg (by decide), if_pos rfl, if_pos hbit,
      transfer_eq_xferN_num_used periph s hb]

/-- A concrete controller state with both FIFO capacities `cap`, RX content
`rx`, TX content `tx` and burst-count register `mbrv`, used as input for
witnesses and counterexamples. -/
def mkState (cap : Nat) (rx tx : List Nat) (mbrv : Nat) : AWSpiState :=
  { fifo_size := cap, rx_fifo := ⟨rx, cap⟩, tx_fifo := ⟨tx, cap⟩,
    gcr := 0x80, tcr := 0x87, ier := 0, isr := 0x32, fcr := 0x00400001,
    wcr := 0, ccr := 2, mbr := mbrv, mtc := 0, bcc := 0,
    ndma_mode_ctl := 0xa5, xch_log := [] }

/-- A controller state with a non-zero interrupt-enable register, exhibiting
that device reset does not restore `ier` to 0. -/
def c2state : AWSpiState :=
  { mkState 4 [] [] 0 with ier := 1, wcr := 2, mbr := 3, mtc := 4, bcc := 5 }

/-- Claim C2, counterexample: device reset does not reset the interrupt-enable
register to 0 — from a state with `ier = 1` the reset handler leaves
`ier = 1`. -/
theorem c2_reset_counterexample :
    (allwinner_sun6i_spi_reset c2state).ier ≠ 0 := by decide

/-- Claim C2 (amended): device reset sets global-control to 0x80,
transfer-control to 0x87, interrupt-status to 0x32, fifo-control to
0x00400001, clock-control to 0x02 and dma-mode-control to 0xa5, and empties
both FIFOs; the remaining stored registers (interrupt-enable, wait-clock,
burst-count, transmit-count, burst-control-count) keep their prior values. -/
theorem c2_reset_amended (s : AWSpiState) :
    allwinner_sun6i_spi_reset s =
      { s with gcr := 0x80, tcr := 0x87, isr := 0x32, fcr := 0x00400001,
               ccr := 0x02, ndma_mode_ctl := 0xa5,
               rx_fifo := ⟨[], s.rx_fifo.capacity⟩,
               tx_fifo := ⟨[], s.tx_fifo.capacity⟩ } := by
  simp [allwinner_sun6i_spi_reset, fifo32_reset]

/-- Claim C4: with the low 24 bits of burst-count zero, writing
transfer-control with the exchange-start bit set performs no exchange and
changes nothing except storing the written value with bit 31 forced to
zero (the zero-burst condition is only logged). -/
theorem c4_zero_burst (periph : Nat → Nat) (s : AWSpiState) (v : Nat)
    (hb : s.mbr % 2 ^ 24 = 0) (hbit : v % 2 ^ 32 &&& 0x80000000 ≠ 0) :
    spi_write periph s 0x08 v = { s with tcr := v % 2 ^ 32 &&& 0x7fffffff } := by
  unfold spi_write
  rw [if_neg (by decide), if_pos rfl, if_pos hbit]
  unfold allwinner_sun6i_spi_transfer
  rw [if_pos hb]

/-- Claim C4, witness: a concrete zero-burst triggering write. -/
theorem c4_zero_burst_witness :
    (mkState 4 [] [8] 0).mbr % 2 ^ 24 = 0 ∧
    (0x80000021 : Nat) % 2 ^ 32 &&& 0x80000000 ≠ 0 ∧
    spi_write (fun x => x) (mkState 4 [] [8] 0) 0x08 0x80000021 =
      { mkState 4 [] [8] 0 with tcr := 0x21 } :=
  ⟨by decide, by decide,
   c4_zero_burst (fun x => x) (mkState 4 [] [8] 0) 0x80000021
     (by decide) (by decide)⟩

/-- Claim C7: a fifo-control write honours the transmit-reset bit (31) with
priority — emptying only the TX FIFO and storing the value with bit 31
cleared — and otherwise honours the receive-reset bit (15), emptying only
the RX FIFO and storing the value with bit 15 cleared; all unrelated bits
of the written value persist in the stored register. -/
theorem c7_fifo_ctl_write (periph : Nat → Nat) (s : AWSpiState) (v : Nat) :
    (v % 2 ^ 32 &&& 0x80000000 ≠ 0 →
      spi_write periph s 0x18 v =
        { s with tx_fifo := ⟨[], s.tx_fifo.capacity⟩,
                 fcr := v % 2 ^ 32 &&& 0x7fffffff }) ∧
    (v % 2 ^ 32 &&& 0x80000000 = 0 → v % 2 ^ 32 &&& 0x8000 ≠ 0 →
      spi_write periph s 0x18 v =
        { s with rx_fifo := ⟨[], s.rx_fifo.capacity⟩,
                 fcr := v % 2 ^ 32 &&& 0xffff7fff }) := by
  constructor
  · intro h
    unfold spi_write
    rw [if_neg (by decide), if_neg (by decide), if_neg (by decide),
        if_neg (by decide), if_pos rfl, if_pos h]
    rfl
  · intro h1 h2
    unfold spi_write
    rw [if_neg (by decide), if_neg (by decide), if_neg (by decide),
        if_neg (by decide), if_pos rfl, if_neg (by simpa using h1), if_pos h2]
    rfl

/-- Claim C7, witness: a write carrying both reset bits plus unrelated bits
empties only the TX FIFO and keeps the unrelated bits (including the
untouched bit 15); a write carrying only the receive-reset bit empties only
the RX FIFO. -/
theorem c7_fifo_ctl_write_witness :
    (0x80008002 : Nat) % 2 ^ 32 &&& 0x80000000 ≠ 0 ∧
    spi_write (fun x => x) (mkState 4 [7] [8] 0) 0x18 0x80008002 =
      { mkState 4 [7] [8] 0 with tx_fifo := ⟨[], 4⟩, fcr := 0x8002 } ∧
    (0x8002 : Nat) % 2 ^ 32 &&& 0x80000000 = 0 ∧
    (0x8002 : Nat) % 2 ^ 32 &&& 0x8000 ≠ 0 ∧
    spi_write (fun x => x) (mkState 4 [7] [8] 0) 0x18 0x8002 =
      { mkState 4 [7] [8] 0 with rx_fifo := ⟨[], 4⟩, fcr := 0x2 } :=
  ⟨by decide,
   (c7_fifo_ctl_write (fun x => x) (mkState 4 [7] [8] 0) 0x80008002).1 (by decide),
   by decide, by decide,
   (c7_fifo_ctl_write (fun x => x) (mkState 4 [7] [8] 0) 0x8002).2
     (by decide) (by decide)⟩

/-- Claim C1, counterexample: with burst-count 1, one word (5) in the TX FIFO
but the RX FIFO already full ([7] at capacity 1), the triggering write does
not push the reply word into the RX FIFO — the reply is dropped, so the RX
FIFO does not receive the burst replies in order as claimed. -/
theorem c1_burst_counterexample :
    ¬ ((spi_write Nat.succ (mkState 1 [7] [5] 1) 0x08 0x80000000).rx_fifo.data
        = (mkState 1 [7] [5] 1).rx_fifo.data ++
          (mkState 1 [7] [5] 1).tx_fifo.data.map Nat.succ) := by
  rw [burst_write_spec Nat.succ (mkState 1 [7] [5] 1) 0x80000000
        (by decide) (by decide)]
  decide

/-- Claim C1 (amended): when the low 24 bits of burst-count equal `N > 0`,
the TX FIFO holds exactly `N` words and the RX FIFO has room for `N` more
words, writing transfer-control with bit 31 set pops all `N` words in FIFO
order, exchanges each with the peripheral (the exchange trace grows by
exactly the TX content, in order), appends the `N` replies to the RX FIFO
in the same relative order, leaves the TX FIFO empty, and stores the
written value with bit 31 forced to zero. -/
theorem c1_burst_exchange (periph : Nat → Nat) (s : AWSpiState) (v N : Nat)
    (hN : s.mbr % 2 ^ 24 = N) (hpos : 0 < N)
    (htx : s.tx_fifo.data.length = N)
    (hrx : s.rx_fifo.data.length + N ≤ s.rx_fifo.capacity)
    (hbit : v % 2 ^ 32 &&& 0x80000000 ≠ 0) :
    spi_write periph s 0x08 v =
      { s with
        tx_fifo := ⟨[], s.tx_fifo.capacity⟩,
        rx_fifo := ⟨s.rx_fifo.data ++ s.tx_fifo.data.map periph,
                    s.rx_fifo.capacity⟩,
        xch_log := s.xch_log ++ s.tx_fifo.data,
        tcr := v % 2 ^ 32 &&& 0x7fffffff } := by
  rw [burst_write_spec periph s v (by omega) hbit]
  rw [show fifo32_num_used s.tx_fifo = s.tx_fifo.data.length from rfl,
      xferN_drain periph s.tx_fifo.data s rfl]
  rw [foldl_rxPush_no_drop _ _ (by simpa [htx] using hrx)]

/-- Claim C1, witness: capacity-4 FIFOs, TX preloaded with [1, 2, 3],
burst-count 3, peripheral replying with the successor of each word. -/
theorem c1_burst_exchange_witness :
    (mkState 4 [] [1, 2, 3] 3).mbr % 2 ^ 24 = 3 ∧ 0 < 3 ∧
    (mkState 4 [] [1, 2, 3] 3).tx_fifo.data.length = 3 ∧
    (mkState 4 [] [1, 2, 3] 3).rx_fifo.data.length + 3 ≤
      (mkState 4 [] [1, 2, 3] 3).rx_fifo.capacity ∧
    (0x80000000 : Nat) % 2 ^ 32 &&& 0x80000000 ≠ 0 ∧
    spi_write Nat.succ (mkState 4 [] [1, 2, 3] 3) 0x08 0x80000000 =
      { mkState 4 [] [1, 2, 3] 3 with
        tx_fifo := ⟨[], 4⟩, rx_fifo := ⟨[2, 3, 4], 4⟩,
        xch_log := [1, 2, 3], tcr := 0 } :=
  ⟨by decide, by decide, by decide, by decide, by decide,
   c1_burst_exchange Nat.succ (mkState 4 [] [1, 2, 3] 3) 0x80000000 3
     (by decide) (by decide) (by decide) (by decide) (by decide)⟩

/-- Claim C5, counterexample: with the low 24 bits of burst-count equal to 0
and one word queued in the TX FIFO (occupancy 1 ≠ burst length 0), the
triggering write aborts before the clamp, so the TX FIFO is not drained —
contradicting the claim that every occupancy/burst mismatch is clamped and
exchanged. -/
theorem c5_clamp_counterexample :
    ¬ ((spi_write (fun x => x) (mkState 4 [] [5] 0) 0x08 0x80000000).tx_fifo.data
        = []) := by decide

/-- Claim C5 (amended): when the low 24 bits of burst-count are non-zero and
the TX FIFO occupancy differs from them, the triggering write clamps the
burst length down to the occupancy and exchanges exactly that many words
(the exchange trace grows by exactly the TX content, in order), leaving the
TX FIFO empty; the mismatch is logged. -/
theorem c5_mismatch_clamp (periph : Nat → Nat) (s : AWSpiState) (v : Nat)
    (hb : 0 < s.mbr % 2 ^ 24)
    (hne : fifo32_num_used s.tx_fifo ≠ s.mbr % 2 ^ 24)
    (hbit : v % 2 ^ 32 &&& 0x80000000 ≠ 0) :
    (spi_write periph s 0x08 v).tx_fifo.data = [] ∧
    (spi_write periph s 0x08 v).xch_log = s.xch_log ++ s.tx_fifo.data := by
  rw [burst_write_spec periph s v (by omega) hbit]
  rw [show fifo32_num_used s.tx_fifo = s.tx_fifo.data.length from rfl,
      xferN_drain periph s.tx_fifo.data s rfl]
  constructor <;> rfl

/-- Claim C5, witness: burst-count 2 with a single queued TX word [9] — the
burst clamps to 1 word, drains TX and exchanges exactly [9]. -/
theorem c5_mismatch_clamp_witness :
    0 < (mkState 4 [] [9] 2).mbr % 2 ^ 24 ∧
    fifo32_num_used (mkState 4 [] [9] 2).tx_fifo ≠
      (mkState 4 [] [9] 2).mbr % 2 ^ 24 ∧
    (0x80000000 : Nat) % 2 ^ 32 &&& 0x80000000 ≠ 0 ∧
    (spi_write (fun x => x) (mkState 4 [] [9] 2) 0x08 0x80000000).tx_fifo.data
      = [] ∧
    (spi_write (fun x => x) (mkState 4 [] [9] 2) 0x08 0x80000000).xch_log
      = [9] :=
  ⟨by decide, by decide, by decide,
   (c5_mismatch_clamp (fun x => x) (mkState 4 [] [9] 2) 0x80000000
      (by decide) (by decide) (by decide)).1,
   (c5_mismatch_clamp (fun x => x) (mkState 4 [] [9] 2) 0x80000000
      (by decide) (by decide) (by decide)).2⟩

lemma spi_write_txdata (periph : Nat → Nat) (s : AWSpiState) (v : Nat) :
    spi_write periph s 0x200 v =
      { s with tx_fifo := fifo32_push s.tx_fifo (v % 2 ^ 32) } := rfl

lemma pushWords_tx (periph : Nat → Nat) :
    ∀ (l : List Nat) (s : AWSpiState),
    (pushWords periph s l).tx_fifo.data
      = s.tx_fifo.data ++
        (l.map (fun w => w % 2 ^ 32)).take
          (s.tx_fifo.capacity - s.tx_fifo.data.length) := by
  intro l
  induction l with
  | nil => intro s; simp [pushWords]
  | cons w ws ih =>
      intro s
      have hstep : pushWords periph s (w :: ws)
          = pushWords periph (spi_write periph s 0x200 w) ws := rfl
      rw [hstep, ih, spi_write_txdata]
      obtain ⟨a1, a2, a3, a4, a5, a6, a7, a8, a9, a10, a11, a12, a13, a14, a15⟩ := s
      obtain ⟨td, tc⟩ := a3
      by_cases hfull : td.length < tc
      · simp only [fifo32_push]
        rw [if_pos hfull]
        simp only [List.map_cons]
        have hn : tc - td.length = (tc - (td.length + 1)) + 1 := by omega
        simp [hn, List.append_assoc]
      · simp only [fifo32_push]
        rw [if_neg hfull]
        have hn : tc - td.length = 0 := by omega
        simp [hn]

/-- Claim C3: writing transmit-data while the TX FIFO is full is a no-op on
the whole controller state (the word is dropped, the model logs, nothing
crashes); consequently pushing any word list into an initially empty TX FIFO
retains exactly the first `capacity` (truncated) words. -/
theorem c3_txdata_full (periph : Nat → Nat) (s : AWSpiState) (v : Nat)
    (l : List Nat) :
    (fifo32_num_used s.tx_fifo = s.tx_fifo.capacity →
      spi_write periph s 0x200 v = s) ∧
    (s.tx_fifo.data = [] →
      (pushWords periph s l).tx_fifo.data
        = (l.map (fun w => w % 2 ^ 32)).take s.tx_fifo.capacity) := by
  constructor
  · intro h
    rw [spi_write_txdata]
    have hp : fifo32_push s.tx_fifo (v % 2 ^ 32) = s.tx_fifo := by
      unfold fifo32_push
      rw [if_neg]
      simp only [fifo32_num_used] at h
      omega
    rw [hp]
  · intro h
    rw [pushWords_tx, h]
    simp

/-- Claim C3, witness: a full capacity-2 TX FIFO drops a pushed word with no
state change, and pushing three words into an empty capacity-2 TX FIFO keeps
exactly the first two. -/
theorem c3_txdata_full_witness :
    fifo32_num_used (mkState 2 [] [1, 2] 0).tx_fifo =
      (mkState 2 [] [1, 2] 0).tx_fifo.capacity ∧
    spi_write (fun x => x) (mkState 2 [] [1, 2] 0) 0x200 3 =
      mkState 2 [] [1, 2] 0 ∧
    (mkState 2 [] [] 0).tx_fifo.data = [] ∧
    (pushWords (fun x => x) (mkState 2 [] [] 0) [10, 20, 30]).tx_fifo.data
      = [10, 20] :=
  ⟨by decide,
   (c3_txdata_full (fun x => x) (mkState 2 [] [1, 2] 0) 3 []).1 (by decide),
   by decide,
   (c3_txdata_full (fun x => x) (mkState 2 [] [] 0) 0 [10, 20, 30]).2
     (by decide)⟩

/-- Claim C6: reading the fifo-status offset returns the receive-FIFO
occupancy in the low field (bit 0) OR-ed with the transmit-FIFO occupancy
shifted to bit 16, computed from the live FIFO occupancies, and leaves the
state unchanged. -/
theorem c6_fifo_status (s : AWSpiState)
    (hrx : fifo32_num_used s.rx_fifo < 2 ^ 16)
    (htx : fifo32_num_used s.tx_fifo < 2 ^ 16) :
    spi_read s 0x1c =
      ((fifo32_num_used s.rx_fifo <<< 0) |||
       (fifo32_num_used s.tx_fifo <<< 16), s) := by
  have h1 : fifo32_num_used s.rx_fifo <<< 0 < 2 ^ 32 := by
    simp only [Nat.shiftLeft_zero]
    exact lt_of_lt_of_le hrx (by norm_num)
  have h2 : fifo32_num_used s.tx_fifo <<< 16 < 2 ^ 32 := Nat.shiftLeft_lt htx
  have hlt : (fifo32_num_used s.rx_fifo <<< 0) |||
      (fifo32_num_used s.tx_fifo <<< 16) < 2 ^ 32 :=
    Nat.bitwise_lt_two_pow h1 h2
  show (((fifo32_num_used s.rx_fifo <<< 0) |||
         (fifo32_num_used s.tx_fifo <<< 16)) % 2 ^ 32, s) = _
  rw [Nat.mod_eq_of_lt hlt]

/-- Claim C6, witness: with 3 words queued in TX and RX empty the read value
is 0x30000 — low field 0, high field 3 — and the state is untouched. -/
theorem c6_fifo_status_witness :
    fifo32_num_used (mkState 4 [] [1, 2, 3] 0).rx_fifo < 2 ^ 16 ∧
    fifo32_num_used (mkState 4 [] [1, 2, 3] 0).tx_fifo < 2 ^ 16 ∧
    spi_read (mkState 4 [] [1, 2, 3] 0) 0x1c =
      (0x30000, mkState 4 [] [1, 2, 3] 0) :=
  ⟨by decide, by decide,
   c6_fifo_status (mkState 4 [] [1, 2, 3] 0) (by decide) (by decide)⟩

/-- Claim C8: accesses outside the register map are logged usage errors with
no effect — the read returns 0 and the write is ignored, leaving the whole
state unchanged; likewise reads of the write-only transmit-data offset and
writes to the read-only receive-data and fifo-status offsets. -/
theorem c8_invalid_access (periph : Nat → Nat) (s : AWSpiState) (v : Nat) :
    (∀ addr, addr ∉ knownOffsets →
      spi_read s addr = (0, s) ∧ spi_write periph s addr v = s) ∧
    spi_read s 0x200 = (0, s) ∧
    spi_write periph s 0x300 v = s ∧
    spi_write periph s 0x1c v = s := by
  refine ⟨?_, rfl, rfl, rfl⟩
  intro addr h
  simp only [knownOffsets, List.mem_cons, List.not_mem_nil, or_false,
    not_or] at h
  obtain ⟨h1, h2, h3, h4, h5, h6, h7, h8, h9, h10, h11, h12, h13, h14⟩ := h
  constructor
  · simp [spi_read, h1, h2, h3, h4, h5, h6, h7, h8, h9, h10, h11, h12, h14]
  · simp [spi_write, h1, h2, h3, h4, h5, h7, h8, h9, h10, h11, h12, h13]

/-- Claim C8, witness: offset 0x40 is outside the map — its read returns 0
and its write is dropped, both leaving the state intact. -/
theorem c8_invalid_access_witness :
    (0x40 : Nat) ∉ knownOffsets ∧
    spi_read (mkState 4 [7] [8] 0) 0x40 = (0, mkState 4 [7] [8] 0) ∧
    spi_write (fun x => x) (mkState 4 [7] [8] 0) 0x40 77 =
      mkState 4 [7] [8] 0 :=
  ⟨by decide,
   ((c8_invalid_access (fun x => x) (mkState 4 [7] [8] 0) 77).1 0x40
      (by decide)).1,
   ((c8_invalid_access (fun x => x) (mkState 4 [7] [8] 0) 77).1 0x40
      (by decide)).2⟩

lemma transferLoopF_complete (periph : Nat → Nat) :
    ∀ (fuel burst : Nat) (s : AWSpiState), burst ≤ fuel →
    transferLoopF periph fuel burst s = some (transferLoop periph burst s) := by
  intro fuel
  induction fuel with
  | zero =>
      intro burst s h
      have hb : burst = 0 := by omega
      subst hb
      rw [transferLoop]
      simp [transferLoopF]
  | succ f ih =>
      intro burst s h
      by_cases hb : burst = 0
      · subst hb
        rw [transferLoop]
        simp [transferLoopF]
      · rw [transferLoop, dif_neg hb]
        unfold transferLoopF
        rw [if_neg hb]
        have hn : 1 ≤ (if 64 < burst then 64 else burst) := by split <;> omega
        exact ih _ _ (by omega)

/-- Claim C9: for every state and every 24-bit burst length, the chunked
`while` loop terminates — running it with a fuel budget equal to the burst
length never exhausts the fuel and returns the final state to the
triggering write. -/
theorem c9_burst_terminates (periph : Nat → Nat) (burst : Nat)
    (s : AWSpiState) (hb : burst ≤ 0xffffff) :
    transferLoopF periph burst burst s = some (transferLoop periph burst s) :=
  transferLoopF_complete periph burst burst s le_rfl

/-- Claim C9, witness: a 70-word burst (two chunks) terminates. -/
theorem c9_burst_terminates_witness :
    (70 : Nat) ≤ 0xffffff ∧
    transferLoopF (fun x => x) 70 70 (mkState 4 [] [] 70) =
      some (transferLoop (fun x => x) 70 (mkState 4 [] [] 70)) :=
  ⟨by decide,
   c9_burst_terminates (fun x => x) 70 (mkState 4 [] [] 70) (by decide)⟩

/-- Claim C10: register reads at any offset other than receive-data (0x300)
leave the whole controller state unchanged; reading receive-data pops one
word from the RX FIFO when it is non-empty and is also state-preserving
when the RX FIFO is empty. -/
theorem c10_read_frame (s : AWSpiState) :
    (∀ addr, addr ≠ 0x300 → (spi_read s addr).2 = s) ∧
    (s.rx_fifo.data ≠ [] →
      spi_read s 0x300 =
        ((fifo32_pop s.rx_fifo).1,
         { s with rx_fifo := (fifo32_pop s.rx_fifo).2 })) ∧
    (s.rx_fifo.data = [] → spi_read s 0x300 = (0, s)) := by
  refine ⟨?_, ?_, ?_⟩
  · intro addr h
    by_cases e1 : addr = 0x04
    · subst e1; rfl
    by_cases e2 : addr = 0x08
    · subst e2; rfl
    by_cases e3 : addr = 0x10
    · subst e3; rfl
    by_cases e4 : addr = 0x14
    · subst e4; rfl
    by_cases e5 : addr = 0x18
    · subst e5; rfl
    by_cases e6 : addr = 0x1c
    · subst e6; rfl
    by_cases e7 : addr = 0x20
    · subst e7; rfl
    by_cases e8 : addr = 0x24
    · subst e8; rfl
    by_cases e9 : addr = 0x30
    · subst e9; rfl
    by_cases e10 : addr = 0x34
    · subst e10; rfl
    by_cases e11 : addr = 0x38
    · subst e11; rfl
    by_cases e12 : addr = 0x88
    · subst e12; rfl
    simp [spi_read, e1, e2, e3, e4, e5, e6, e7, e8, e9, e10, e11, e12, h]
  · intro h
    have he : ¬ (fifo32_is_empty s.rx_fifo = true) := by
      simp [fifo32_is_empty]
      exact h
    show (if fifo32_is_empty s.rx_fifo then ((0 : Nat), s)
          else ((fifo32_pop s.rx_fifo).1,
                { s with rx_fifo := (fifo32_pop s.rx_fifo).2 })) = _
    rw [if_neg he]
  · intro h
    have he : fifo32_is_empty s.rx_fifo = true := by
      simp [fifo32_is_empty, h]
    show (if fifo32_is_empty s.rx_fifo then ((0 : Nat), s)
          else ((fifo32_pop s.rx_fifo).1,
                { s with rx_fifo := (fifo32_pop s.rx_fifo).2 })) = _
    rw [if_pos he]

/-- Claim C10, witness: reading global-control leaves a concrete state
unchanged, and reading receive-data pops the queued word 7. -/
theorem c10_read_frame_witness :
    (0x04 : Nat) ≠ 0x300 ∧
    (spi_read (mkState 4 [7] [8] 0) 0x04).2 = mkState 4 [7] [8] 0 ∧
    (mkState 4 [7] [8] 0).rx_fifo.data ≠ [] ∧
    spi_read (mkState 4 [7] [8] 0) 0x300 =
      (7, { mkState 4 [7] [8] 0 with rx_fifo := ⟨[], 4⟩ }) :=
  ⟨by decide,
   (c10_read_frame (mkState 4 [7] [8] 0)).1 0x04 (by decide),
   by decide,
   (c10_read_frame (mkState 4 [7] [8] 0)).2.1 (by decide)⟩
